/-
Verification of the AI resilience / quota-governance core of this repository:
the circuit breaker, retry loop, usage guard and model router
(`app/ai/client.py`, `app/ai/guard.py`, `app/ai/model_router.py`).

Modelling conventions:
* Python floats (timestamps, delays, costs) are modelled as rationals `ℚ`.
* `time.time()` / `datetime.utcnow()` are modelled by explicit `now : ℚ`
  parameters (seconds); `timedelta(days=1)` is `86400` seconds.
* Mutation of a dataclass instance becomes explicit state passing: a method
  that mutates `self` returns the updated structure (paired with its Python
  return value when it has one).
* The in-memory `_usage_cache` dict is modelled as a function
  `String → Option UsageStats`.
-/

import Mathlib

/-! ## CircuitBreaker (`app/ai/client.py`, lines 27-108) -/

/-- `CircuitState` enum from `client.py`. -/
inductive CircuitState where
  | closed
  | open_
  | halfOpen
deriving DecidableEq, Repr

/-- The `CircuitBreaker` dataclass: configuration and mutable fields,
with the source's default values. -/
structure CircuitBreaker where
  failure_threshold : ℕ := 5
  recovery_timeout : ℚ := 60
  half_open_max_calls : ℕ := 3
  state : CircuitState := .closed
  failure_count : ℕ := 0
  last_failure_time : Option ℚ := none
  half_open_calls : ℕ := 0
deriving DecidableEq, Repr

/-- `CircuitBreaker.can_execute` (lines 53-75).  Reads the clock (`now`),
returns the boolean answer together with the possibly-mutated breaker
(the Open→HalfOpen transition happens as a side effect of this read). -/
def CircuitBreaker.can_execute (cb : CircuitBreaker) (now : ℚ) :
    Bool × CircuitBreaker :=
  match cb.state with
  | .closed => (true, cb)
  | .open_ =>
    match cb.last_failure_time with
    | none => (true, { cb with state := .halfOpen })
    | some t =>
      if now - t ≥ cb.recovery_timeout then
        (true, { cb with state := .halfOpen, half_open_calls := 0 })
      else
        (false, cb)
  | .halfOpen => (decide (cb.half_open_calls < cb.half_open_max_calls), cb)

/-- `CircuitBreaker.record_success` (lines 77-86). -/
def CircuitBreaker.record_success (cb : CircuitBreaker) : CircuitBreaker :=
  match cb.state with
  | .halfOpen => { cb with state := .closed, failure_count := 0, half_open_calls := 0 }
  | .closed => { cb with failure_count := 0 }
  | .open_ => cb

/-- `CircuitBreaker.record_failure` (lines 88-99).  Increments the failure
count and stamps `last_failure_time := now` first, then dispatches on the
state. -/
def CircuitBreaker.record_failure (cb : CircuitBreaker) (now : ℚ) :
    CircuitBreaker :=
  let cb1 : CircuitBreaker :=
    { cb with failure_count := cb.failure_count + 1, last_failure_time := some now }
  match cb1.state with
  | .halfOpen => { cb1 with state := .open_, half_open_calls := 0 }
  | .closed =>
    if cb1.failure_count ≥ cb1.failure_threshold then
      { cb1 with state := .open_ }
    else
      cb1
  | .open_ => cb1

/-- A sequence of consecutive `record_failure()` calls at the given
timestamps. -/
def record_failures (cb : CircuitBreaker) (times : List ℚ) : CircuitBreaker :=
  times.foldl CircuitBreaker.record_failure cb

/-- Running failures on a Closed breaker that stays strictly below the
threshold leaves it Closed and adds the number of calls to the count. -/
theorem record_failures_stays_closed (ts : List ℚ) :
    ∀ cb : CircuitBreaker, cb.state = .closed →
    cb.failure_count + ts.length < cb.failure_threshold →
    (record_failures cb ts).state = .closed ∧
    (record_failures cb ts).failure_count = cb.failure_count + ts.length ∧
    (record_failures cb ts).failure_threshold = cb.failure_threshold := by
  induction ts with
  | nil =>
    intro cb hstate _
    simpa [record_failures] using hstate
  | cons t rest ih =>
    intro cb hstate hlt
    have hstep : cb.record_failure t =
        { cb with failure_count := cb.failure_count + 1,
                  last_failure_time := some t } := by
      simp only [CircuitBreaker.record_failure, hstate]
      rw [if_neg]
      simp only [List.length_cons] at hlt
      omega
    have hrw : record_failures cb (t :: rest) =
        record_failures (cb.record_failure t) rest := rfl
    rw [hrw, hstep]
    have := ih { cb with failure_count := cb.failure_count + 1,
                         last_failure_time := some t }
      (by simp [hstate]) (by simp only [List.length_cons] at hlt; simpa using by omega)
    simp only [List.length_cons]
    exact ⟨this.1, by rw [this.2.1]; simp; omega, by rw [this.2.2]⟩

/-- Running exactly enough failures on a Closed breaker to reach the
threshold opens it. -/
theorem record_failures_opens_at_threshold (ts : List ℚ) :
    ∀ cb : CircuitBreaker, cb.state = .closed →
    cb.failure_count + ts.length = cb.failure_threshold →
    0 < ts.length →
    (record_failures cb ts).state = .open_ := by
  induction ts with
  | nil => intro cb _ _ h; simp at h
  | cons t rest ih =>
    intro cb hstate heq _
    have hrw : record_failures cb (t :: rest) =
        record_failures (cb.record_failure t) rest := rfl
    simp only [List.length_cons] at heq
    by_cases hrest : rest.length = 0
    · -- the last call: the increment reaches the threshold, the breaker opens
      have hrest' : rest = [] := List.length_eq_zero.mp hrest
      have hstep : cb.record_failure t =
          { cb with failure_count := cb.failure_count + 1,
                    last_failure_time := some t, state := .open_ } := by
        simp only [CircuitBreaker.record_failure, hstate]
        rw [if_pos]
        omega
      rw [hrw, hstep, hrest']
      rfl
    · -- not yet at the threshold: stay closed and recurse
      have hstep : cb.record_failure t =
          { cb with failure_count := cb.failure_count + 1,
                    last_failure_time := some t } := by
        simp only [CircuitBreaker.record_failure, hstate]
        rw [if_neg]
        omega
      rw [hrw, hstep]
      exact ih _ (by simp [hstate]) (by simpa using by omega) (by omega)

/-- C1: starting from a Closed breaker with `failure_count = 0` and a
positive threshold, a run of `failure_threshold` consecutive
`record_failure()` calls leaves the breaker Closed after each of the first
`failure_threshold - 1` calls and opens it exactly on the call that reaches
the threshold. -/
theorem circuit_opens_exactly_at_threshold (cb : CircuitBreaker) (ts : List ℚ)
    (hstate : cb.state = .closed) (hcount : cb.failure_count = 0)
    (hpos : 0 < cb.failure_threshold)
    (hlen : ts.length = cb.failure_threshold) :
    (∀ k, k < cb.failure_threshold →
      (record_failures cb (ts.take k)).state = .closed) ∧
    (record_failures cb ts).state = .open_ := by
  constructor
  · intro k hk
    have hlen' : (ts.take k).length = k := by
      simp [List.length_take]
      omega
    exact (record_failures_stays_closed (ts.take k) cb hstate
      (by rw [hlen', hcount]; omega)).1
  · exact record_failures_opens_at_threshold ts cb hstate
      (by rw [hcount, hlen]; omega) (by omega)

/-- A concrete Closed breaker with threshold 2, for the C1 witness. -/
def cbThreshold2 : CircuitBreaker :=
  { failure_threshold := 2, state := .closed, failure_count := 0 }

/-- Witness for C1: a Closed breaker with threshold 2 opens after exactly
two failures, staying closed through the first. -/
theorem circuit_opens_exactly_at_threshold_witness :
    (∀ k, k < cbThreshold2.failure_threshold →
      (record_failures cbThreshold2 ([1, 2].take k)).state = .closed) ∧
    (record_failures cbThreshold2 [1, 2]).state = .open_ :=
  circuit_opens_exactly_at_threshold cbThreshold2 [1, 2] rfl rfl (by decide) rfl

/-- C3: an Open breaker with a recorded last failure time lets the next
`can_execute()` through exactly when the recovery timeout has elapsed, in
which case it transitions to HalfOpen and resets the probe counter; when the
timeout has not elapsed it returns false and changes nothing. -/
theorem open_breaker_recovery (cb : CircuitBreaker) (now t : ℚ)
    (hstate : cb.state = .open_) (hlast : cb.last_failure_time = some t) :
    (now - t ≥ cb.recovery_timeout →
      cb.can_execute now =
        (true, { cb with state := .halfOpen, half_open_calls := 0 })) ∧
    (now - t < cb.recovery_timeout →
      cb.can_execute now = (false, cb)) := by
  constructor
  · intro h
    simp [CircuitBreaker.can_execute, hstate, hlast, h]
  · intro h
    simp [CircuitBreaker.can_execute, hstate, hlast, not_le.mpr h]

/-- A concrete Open breaker (last failure at time 0, probe counter 2), for
the C3 witness. -/
def cbOpenAt0 : CircuitBreaker :=
  { state := .open_, last_failure_time := some 0, half_open_calls := 2 }

/-- Witness for C3: the Open breaker `cbOpenAt0` (default recovery timeout
60) admits at `now = 60`, transitioning to HalfOpen with probe counter 0. -/
theorem open_breaker_recovery_witness :
    ((60 : ℚ) - 0 ≥ cbOpenAt0.recovery_timeout →
      cbOpenAt0.can_execute 60 =
        (true, { cbOpenAt0 with state := .halfOpen, half_open_calls := 0 })) ∧
    ((60 : ℚ) - 0 < cbOpenAt0.recovery_timeout →
      cbOpenAt0.can_execute 60 = (false, cbOpenAt0)) :=
  open_breaker_recovery cbOpenAt0 60 0 rfl rfl

/-- C9: an Open breaker whose `last_failure_time` is `None` admits the very
next `can_execute()` call (no timeout wait), transitions to HalfOpen, and
leaves the half-open probe counter untouched (it is not reset to 0 on this
branch). -/
theorem open_breaker_no_timestamp (cb : CircuitBreaker) (now : ℚ)
    (hstate : cb.state = .open_) (hlast : cb.last_failure_time = none) :
    (cb.can_execute now).1 = true ∧
    (cb.can_execute now).2.state = .halfOpen ∧
    (cb.can_execute now).2.half_open_calls = cb.half_open_calls := by
  simp [CircuitBreaker.can_execute, hstate, hlast]

/-- A concrete Open breaker with no recorded failure time, for the C9
witness. -/
def cbOpenNoTime : CircuitBreaker :=
  { state := .open_, last_failure_time := none, half_open_calls := 2 }

/-- Witness for C9: an Open breaker with no recorded failure time and probe
counter 2 admits immediately, moving to HalfOpen with the counter still 2. -/
theorem open_breaker_no_timestamp_witness :
    (cbOpenNoTime.can_execute 0).1 = true ∧
    (cbOpenNoTime.can_execute 0).2.state = .halfOpen ∧
    (cbOpenNoTime.can_execute 0).2.half_open_calls = cbOpenNoTime.half_open_calls :=
  open_breaker_no_timestamp cbOpenNoTime 0 rfl rfl

/-! ## RetryConfig (`app/ai/client.py`, lines 111-131) -/

/-- The `RetryConfig` dataclass with the source's defaults. -/
structure RetryConfig where
  max_retries : ℕ := 3
  base_delay : ℚ := 1
  max_delay : ℚ := 30
  exponential_base : ℚ := 2
  jitter : Bool := true
deriving DecidableEq, Repr

/-- `RetryConfig.calculate_delay` (lines 120-131).  The call to
`random.random()` is modelled by the parameter `u ∈ [0, 1)`. -/
def RetryConfig.calculate_delay (cfg : RetryConfig) (attempt : ℕ) (u : ℚ) : ℚ :=
  let delay := min (cfg.base_delay * cfg.exponential_base ^ attempt) cfg.max_delay
  if cfg.jitter then delay * (1 + u * (25 / 100)) else delay

/-! ## Errors and the retry loop (`app/ai/client.py`, lines 146-280) -/

/-- Exceptions that can cross the retry loop: `asyncio.TimeoutError`,
`AIClientError` (with its `is_retryable` flag and wrapped
`original_error`), and any other exception (tagged to tell instances
apart).  `CircuitOpenError` raised by the loop itself is modelled
separately in `RetryResult`. -/
inductive PyErr where
  | timeoutError : PyErr
  | aiClientError (is_retryable : Bool) (original_error : Option PyErr) : PyErr
  | genericError (tag : ℕ) : PyErr

/-- An `AIClientError` with `is_retryable = False`: the one shape of
operation failure that `execute_with_retry` re-raises instead of
retrying (lines 260-263). -/
def PyErr.nonretryable_ai : PyErr → Bool
  | .aiClientError false _ => true
  | _ => false

/-- The outcome of one invocation of the wrapped operation. -/
inductive OpOutcome (τ : Type) where
  | success (v : τ)
  | failure (e : PyErr)

/-- How one call to `execute_with_retry` terminates: a returned value, a
`CircuitOpenError`, a re-raised non-retryable `AIClientError`, or the
retries-exhausted `AIClientError`. -/
inductive RetryResult (τ : Type) where
  | ok (v : τ)
  | circuitOpen
  | raised (e : PyErr)
  | exhausted (e : PyErr)

/-- The body of `execute_with_retry`'s `for attempt in range(...)` loop
(lines 221-280), fuel-indexed by the remaining attempts.  The operation is
modelled as a function from the attempt index to its outcome, the clock as
a function from the attempt index to the current time.  Returns the
result, the final breaker, and the number of operation invocations. -/
def retry_from {τ : Type} (op : ℕ → OpOutcome τ) (clock : ℕ → ℚ)
    (cb : CircuitBreaker) (attempt : ℕ) (fuel : ℕ) (last_error : Option PyErr) :
    RetryResult τ × CircuitBreaker × ℕ :=
  match fuel with
  | 0 => (.exhausted (.aiClientError false last_error), cb, 0)
  | fuel' + 1 =>
    let ce := cb.can_execute (clock attempt)
    if ce.1 = false then
      (.circuitOpen, ce.2, 0)
    else
      match op attempt with
      | .success v => (.ok v, ce.2.record_success, 1)
      | .failure e =>
        if e.nonretryable_ai then
          (.raised e, ce.2, 1)
        else
          let next := retry_from op clock (ce.2.record_failure (clock attempt))
            (attempt + 1) fuel' (some e)
          (next.1, next.2.1, next.2.2 + 1)

/-- `RobustAIClient.execute_with_retry` (lines 203-280): the loop runs for
`max_retries + 1` attempts starting at attempt 0 with no last error. -/
def execute_with_retry {τ : Type} (cfg : RetryConfig) (cb : CircuitBreaker)
    (op : ℕ → OpOutcome τ) (clock : ℕ → ℚ) :
    RetryResult τ × CircuitBreaker × ℕ :=
  retry_from op clock cb 0 (cfg.max_retries + 1) none

/-- A Closed breaker always lets `can_execute` through unchanged. -/
theorem can_execute_closed (cb : CircuitBreaker) (t : ℚ)
    (hstate : cb.state = .closed) : cb.can_execute t = (true, cb) := by
  simp [CircuitBreaker.can_execute, hstate]

/-- `record_failure` on a Closed breaker always increments the count and
preserves the threshold, whatever state it lands in. -/
theorem record_failure_closed_fields (cb : CircuitBreaker) (t : ℚ)
    (hstate : cb.state = .closed) :
    (cb.record_failure t).failure_count = cb.failure_count + 1 ∧
    (cb.record_failure t).failure_threshold = cb.failure_threshold := by
  simp only [CircuitBreaker.record_failure, hstate]
  split <;> simp

/-- `record_failure` on a Closed breaker strictly below the threshold
(after the increment) leaves it Closed. -/
theorem record_failure_closed_stay (cb : CircuitBreaker) (t : ℚ)
    (hstate : cb.state = .closed)
    (hlt : cb.failure_count + 1 < cb.failure_threshold) :
    (cb.record_failure t).state = .closed := by
  simp only [CircuitBreaker.record_failure, hstate]
  rw [if_neg]
  omega

/-- One step of the retry loop on a Closed breaker whose operation fails
with a retryable error: record the failure and recurse, counting one more
invocation. -/
theorem retry_from_fail_step {τ : Type} (op : ℕ → OpOutcome τ) (clock : ℕ → ℚ)
    (cb : CircuitBreaker) (attempt fuel' : ℕ) (le : Option PyErr) (e : PyErr)
    (hstate : cb.state = .closed) (hop : op attempt = .failure e)
    (hre : e.nonretryable_ai = false) :
    retry_from op clock cb attempt (fuel' + 1) le =
      ((retry_from op clock (cb.record_failure (clock attempt)) (attempt + 1)
          fuel' (some e)).1,
       (retry_from op clock (cb.record_failure (clock attempt)) (attempt + 1)
          fuel' (some e)).2.1,
       (retry_from op clock (cb.record_failure (clock attempt)) (attempt + 1)
          fuel' (some e)).2.2 + 1) := by
  rw [retry_from, can_execute_closed cb (clock attempt) hstate, hop]
  simp [hre]

/-- Exhaustion of the retry loop: if the breaker stays permissive for the
whole fuel budget and the operation fails with a retryable error on every
attempt in range, the loop consumes exactly `fuel` invocations and raises
the exhausted-retries `AIClientError` wrapping the final attempt's error. -/
theorem retry_from_all_fail {τ : Type} (op : ℕ → OpOutcome τ) (clock : ℕ → ℚ) :
    ∀ (fuel attempt : ℕ) (cb : CircuitBreaker) (le : Option PyErr),
    (0 < fuel → cb.state = .closed) →
    cb.failure_count + fuel ≤ cb.failure_threshold →
    (∀ n, n < fuel → ∃ e, op (attempt + n) = .failure e ∧ e.nonretryable_ai = false) →
    (retry_from op clock cb attempt fuel le).2.2 = fuel ∧
    (fuel = 0 →
      (retry_from op clock cb attempt fuel le).1 =
        .exhausted (.aiClientError false le)) ∧
    (∀ e', 0 < fuel → op (attempt + fuel - 1) = .failure e' →
      (retry_from op clock cb attempt fuel le).1 =
        .exhausted (.aiClientError false (some e'))) := by
  intro fuel
  induction fuel with
  | zero =>
    intro attempt cb le _ _ _
    refine ⟨rfl, fun _ => rfl, fun e' h0 _ => absurd h0 (by omega)⟩
  | succ f ih =>
    intro attempt cb le hclosed hcount hop
    have hstate : cb.state = .closed := hclosed (by omega)
    obtain ⟨e, hope, hre⟩ := hop 0 (by omega)
    rw [Nat.add_zero] at hope
    have hstep := retry_from_fail_step op clock cb attempt f le e hstate hope hre
    have hfields := record_failure_closed_fields cb (clock attempt) hstate
    have ihapp := ih (attempt + 1) (cb.record_failure (clock attempt)) (some e)
      (fun hf => record_failure_closed_stay cb (clock attempt) hstate (by omega))
      (by omega)
      (fun n hn => by
        obtain ⟨e'', h'', hre''⟩ := hop (n + 1) (by omega)
        exact ⟨e'', by rw [show attempt + 1 + n = attempt + (n + 1) by omega]; exact h'',
          hre''⟩)
    refine ⟨?_, fun h => absurd h (by omega), ?_⟩
    · rw [hstep]
      simpa using ihapp.1
    · intro e' _ hlast
      rw [hstep]
      by_cases hf : f = 0
      · subst hf
        have : e' = e := by
          rw [show attempt + (0 + 1) - 1 = attempt by omega] at hlast
          rw [hope] at hlast
          cases hlast
          rfl
        subst this
        simpa using ihapp.2.1 rfl
      · refine ihapp.2.2 e' (by omega) ?_
        rw [show attempt + 1 + f - 1 = attempt + (f + 1) - 1 by omega]
        exact hlast

/-- C2: with `max_retries = 2` and a breaker that permits every attempt (a
Closed breaker far enough below its threshold), an operation failing with a
retryable error at every invocation is invoked exactly 3 times
(`max_retries + 1`), after which the loop raises an `AIClientError` with
`is_retryable = false` wrapping the error of the last (third) attempt. -/
theorem retry_exhaustion_three_attempts {τ : Type} (cfg : RetryConfig)
    (cb : CircuitBreaker) (op : ℕ → OpOutcome τ) (clock : ℕ → ℚ) (e2 : PyErr)
    (hmax : cfg.max_retries = 2)
    (hstate : cb.state = .closed)
    (hcount : cb.failure_count + 3 ≤ cb.failure_threshold)
    (hop : ∀ n, ∃ e, op n = .failure e ∧ e.nonretryable_ai = false)
    (h2 : op 2 = .failure e2) :
    (execute_with_retry cfg cb op clock).1 =
      .exhausted (.aiClientError false (some e2)) ∧
    (execute_with_retry cfg cb op clock).2.2 = 3 := by
  have key := retry_from_all_fail op clock 3 0 cb none
    (fun _ => hstate) hcount
    (fun n _ => by simpa using hop n)
  have hunfold : execute_with_retry cfg cb op clock =
      retry_from op clock cb 0 3 none := by
    rw [execute_with_retry, hmax]
  constructor
  · rw [hunfold]
    exact key.2.2 e2 (by omega) (by simpa using h2)
  · rw [hunfold]
    exact key.1

/-- A concrete closed breaker at the default threshold 5, for the C2
witness. -/
def cbClosedFresh : CircuitBreaker := {}

/-- A concrete always-timing-out operation, for the C2 and C6 witnesses. -/
def opAlwaysTimeout (τ : Type) : ℕ → OpOutcome τ := fun _ => .failure .timeoutError

/-- A concrete clock that always reads 0. -/
def clock0 : ℕ → ℚ := fun _ => 0

/-- Witness for C2: three timeouts against a fresh default breaker exhaust
`max_retries = 2`, with exactly 3 invocations and the final timeout
wrapped. -/
theorem retry_exhaustion_three_attempts_witness :
    (execute_with_retry { max_retries := 2 } cbClosedFresh
        (opAlwaysTimeout Unit) clock0).1 =
      .exhausted (.aiClientError false (some .timeoutError)) ∧
    (execute_with_retry { max_retries := 2 } cbClosedFresh
        (opAlwaysTimeout Unit) clock0).2.2 = 3 :=
  retry_exhaustion_three_attempts { max_retries := 2 } cbClosedFresh
    (opAlwaysTimeout Unit) clock0 .timeoutError rfl rfl (by decide)
    (fun _ => ⟨.timeoutError, rfl, rfl⟩) rfl

/-! ## AIResponse and `generate` (`app/ai/client.py`, lines 134-143, 282-343) -/

/-- The `AIResponse` pydantic model with its defaulted flags. -/
structure AIResponse where
  content : String
  model : String
  tokens_used : ℕ
  finish_reason : String
  request_id : String
  latency_ms : ℚ
  from_cache : Bool := false
  fallback_used : Bool := false
deriving DecidableEq, Repr

/-- `RobustAIClient.generate` (lines 282-343): runs `execute_with_retry`
over the model call; on success it stamps the measured latency and request
id onto the response; on `CircuitOpenError` it swallows the error and
returns the fixed fallback response; any other error propagates.  The
measured latency is modelled by the `latency_ms` parameter and the
generated request id by `request_id`. -/
def generate (cfg : RetryConfig) (cb : CircuitBreaker)
    (op : ℕ → OpOutcome AIResponse) (clock : ℕ → ℚ)
    (model request_id : String) (latency_ms : ℚ) :
    RetryResult AIResponse × CircuitBreaker × ℕ :=
  let r := execute_with_retry cfg cb op clock
  match r.1 with
  | .ok resp =>
      (.ok { resp with latency_ms := latency_ms, request_id := request_id }, r.2)
  | .circuitOpen =>
      (.ok { content := "Service temporarily unavailable. Please try again later.",
             model := model,
             tokens_used := 0,
             finish_reason := "circuit_open",
             request_id := request_id,
             latency_ms := latency_ms,
             fallback_used := true }, r.2)
  | .raised e => (.raised e, r.2)
  | .exhausted e => (.exhausted e, r.2)

/-- C6: whenever the inner `execute_with_retry` terminates with
`CircuitOpenError`, `generate` does not propagate it: it returns a
successful response with `fallback_used = true`, `tokens_used = 0`,
`finish_reason = "circuit_open"` and the fixed unavailability message. -/
theorem generate_circuit_open_fallback (cfg : RetryConfig) (cb : CircuitBreaker)
    (op : ℕ → OpOutcome AIResponse) (clock : ℕ → ℚ)
    (model request_id : String) (latency_ms : ℚ)
    (h : (execute_with_retry cfg cb op clock).1 = .circuitOpen) :
    (generate cfg cb op clock model request_id latency_ms).1 =
      .ok { content := "Service temporarily unavailable. Please try again later.",
            model := model,
            tokens_used := 0,
            finish_reason := "circuit_open",
            request_id := request_id,
            latency_ms := latency_ms,
            fallback_used := true } := by
  simp only [generate, h]

/-- A concrete Open breaker that denies execution at time 0 (last failure
at time 0, recovery timeout 60), for the C6 witness. -/
def cbOpenDenying : CircuitBreaker :=
  { state := .open_, failure_count := 5, last_failure_time := some 0 }

/-- Witness for C6: against the denying Open breaker, `generate` returns
the fixed fallback response. -/
theorem generate_circuit_open_fallback_witness :
    (generate {} cbOpenDenying (opAlwaysTimeout AIResponse) clock0
        "gemini-1.5-flash" "req1" 7).1 =
      .ok { content := "Service temporarily unavailable. Please try again later.",
            model := "gemini-1.5-flash",
            tokens_used := 0,
            finish_reason := "circuit_open",
            request_id := "req1",
            latency_ms := 7,
            fallback_used := true } :=
  generate_circuit_open_fallback {} cbOpenDenying (opAlwaysTimeout AIResponse)
    clock0 "gemini-1.5-flash" "req1" 7 (by
      have hce : cbOpenDenying.can_execute 0 = (false, cbOpenDenying) := by
        simp only [cbOpenDenying, CircuitBreaker.can_execute]
        norm_num
      simp [execute_with_retry, retry_from, clock0, hce])

/-- C7: without jitter, `calculate_delay` is exactly
`min(base_delay * exponential_base ^ attempt, max_delay)`, monotonically
non-decreasing in the attempt, and never above `max_delay`; with jitter it
is that same value scaled by a factor `1 + u/4 ∈ [1, 1.25]`, so jitter
never reduces the delay.  (Hypotheses: nonneg base delay and max delay,
exponential base at least 1, jitter draw `u ∈ [0, 1)`.) -/
theorem calculate_delay_spec (cfg : RetryConfig) (a b : ℕ) (u : ℚ)
    (hbase : 0 ≤ cfg.base_delay) (hexp : 1 ≤ cfg.exponential_base)
    (hmaxd : 0 ≤ cfg.max_delay) (hu0 : 0 ≤ u) (hu1 : u < 1) :
    (cfg.jitter = false →
      cfg.calculate_delay a u =
        min (cfg.base_delay * cfg.exponential_base ^ a) cfg.max_delay) ∧
    (cfg.jitter = false → a ≤ b →
      cfg.calculate_delay a u ≤ cfg.calculate_delay b u) ∧
    (cfg.jitter = false → cfg.calculate_delay a u ≤ cfg.max_delay) ∧
    (cfg.jitter = true →
      cfg.calculate_delay a u =
        min (cfg.base_delay * cfg.exponential_base ^ a) cfg.max_delay
          * (1 + u * (25 / 100)) ∧
      1 ≤ 1 + u * (25 / 100) ∧
      1 + u * (25 / 100) ≤ 5 / 4 ∧
      min (cfg.base_delay * cfg.exponential_base ^ a) cfg.max_delay ≤
        cfg.calculate_delay a u) := by
  have hfac1 : (1 : ℚ) ≤ 1 + u * (25 / 100) := by nlinarith
  have hfac2 : 1 + u * (25 / 100) ≤ 5 / 4 := by nlinarith
  have hd0 : ∀ n : ℕ, 0 ≤ min (cfg.base_delay * cfg.exponential_base ^ n) cfg.max_delay := by
    intro n
    exact le_min (mul_nonneg hbase (pow_nonneg (by linarith) n)) hmaxd
  refine ⟨fun hj => by simp [RetryConfig.calculate_delay, hj], fun hj hab => ?_,
    fun hj => ?_, fun hj => ?_⟩
  · simp only [RetryConfig.calculate_delay, hj, Bool.false_eq_true, if_false]
    exact min_le_min
      (mul_le_mul_of_nonneg_left (pow_le_pow_right₀ hexp hab) hbase) le_rfl
  · simp only [RetryConfig.calculate_delay, hj, Bool.false_eq_true, if_false]
    exact min_le_right _ _
  · refine ⟨by simp [RetryConfig.calculate_delay, hj], hfac1, hfac2, ?_⟩
    simp only [RetryConfig.calculate_delay, hj, if_true]
    exact le_mul_of_one_le_right (hd0 a) hfac1

/-- The default retry configuration with jitter turned off, for the C7
witness. -/
def rcNoJitter : RetryConfig := { jitter := false }

/-- Witness for C7: the delay spec instantiated at the no-jitter default
configuration, attempts 1 and 2, jitter draw 1/2. -/
theorem calculate_delay_spec_witness :
    (rcNoJitter.jitter = false →
      rcNoJitter.calculate_delay 1 (1 / 2) =
        min (rcNoJitter.base_delay * rcNoJitter.exponential_base ^ 1)
          rcNoJitter.max_delay) ∧
    (rcNoJitter.jitter = false → 1 ≤ 2 →
      rcNoJitter.calculate_delay 1 (1 / 2) ≤ rcNoJitter.calculate_delay 2 (1 / 2)) ∧
    (rcNoJitter.jitter = false →
      rcNoJitter.calculate_delay 1 (1 / 2) ≤ rcNoJitter.max_delay) ∧
    (rcNoJitter.jitter = true →
      rcNoJitter.calculate_delay 1 (1 / 2) =
        min (rcNoJitter.base_delay * rcNoJitter.exponential_base ^ 1)
          rcNoJitter.max_delay * (1 + (1 / 2) * (25 / 100)) ∧
      1 ≤ 1 + (1 / 2 : ℚ) * (25 / 100) ∧
      1 + (1 / 2 : ℚ) * (25 / 100) ≤ 5 / 4 ∧
      min (rcNoJitter.base_delay * rcNoJitter.exponential_base ^ 1)
          rcNoJitter.max_delay ≤ rcNoJitter.calculate_delay 1 (1 / 2)) :=
  calculate_delay_spec rcNoJitter 1 2 (1 / 2) (by norm_num [rcNoJitter])
    (by norm_num [rcNoJitter]) (by norm_num [rcNoJitter]) (by norm_num)
    (by norm_num)

/-! ## AIGuard (`app/ai/guard.py`) -/

/-- The `UsageQuota` pydantic configuration with its defaults.  The guard's
constructor overrides the first two from settings; the repository's
settings define neither `ai_max_tokens_per_task` nor
`ai_daily_quota_per_user`, so the `getattr` fallbacks keep these values. -/
structure UsageQuota where
  max_tokens_per_task : ℕ := 32000
  daily_tokens_per_user : ℕ := 100000
  daily_tokens_per_repo : ℕ := 500000
  monthly_tokens_per_user : ℕ := 2000000
  monthly_tokens_per_org : ℕ := 10000000
deriving DecidableEq, Repr

/-- The `UsageStats` pydantic model (per-caller counter state). -/
structure UsageStats where
  user_id : String
  daily_tokens : ℕ := 0
  monthly_tokens : ℕ := 0
  daily_requests : ℕ := 0
  monthly_requests : ℕ := 0
  last_reset_daily : Option ℚ := none
  last_reset_monthly : Option ℚ := none
deriving DecidableEq, Repr

/-- `QuotaExceededError` from `guard.py` (message, quota_type, limit,
current). -/
structure QuotaExceededError where
  message : String
  quota_type : String
  limit : ℕ
  current : ℕ
deriving DecidableEq, Repr

/-- The `UsageType` enum. -/
inductive UsageType where
  | analysis
  | ci_generation
  | chat
  | embedding
deriving DecidableEq, Repr

/-- The `UsageRecord` dataclass (timestamp modelled as seconds). -/
structure UsageRecord where
  user_id : String
  repository_id : Option String
  usage_type : UsageType
  tokens_used : ℕ
  model : String
  timestamp : ℚ
  request_id : String
  cost_estimate : ℚ
deriving DecidableEq, Repr

/-- `check_quota` lines 144-147: fetch the caller's stats from the
in-memory cache, lazily creating a fresh entry. -/
def get_or_create_stats (cache : String → Option UsageStats)
    (user_id : String) : UsageStats :=
  match cache user_id with
  | none => { user_id := user_id }
  | some s => s

/-- `check_quota` line 150: the reset applies when no daily reset is
recorded or when strictly more than `timedelta(days=1)` (86400 s) has
elapsed since it. -/
def daily_reset_due (stats : UsageStats) (now : ℚ) : Bool :=
  match stats.last_reset_daily with
  | none => true
  | some t => decide (now - t > 86400)

/-- `check_quota` lines 150-153: zero the daily counters and stamp the
reset time when the reset is due. -/
def reset_daily_if_due (stats : UsageStats) (now : ℚ) : UsageStats :=
  if daily_reset_due stats now then
    { stats with daily_tokens := 0, daily_requests := 0,
                 last_reset_daily := some now }
  else
    stats

/-- `AIGuard.check_quota` (lines 105-166), in-memory path
(`redis_client is None`).  Returns the outcome (`.ok true` or the raised
`QuotaExceededError`) together with the updated cache; the lazily-created
and possibly-reset stats entry is stored in the cache even when the daily
check then fails, mirroring the in-place mutation of the cached object. -/
def check_quota (quota : UsageQuota) (cache : String → Option UsageStats)
    (user_id : String) (requested_tokens : ℕ) (now : ℚ) :
    Except QuotaExceededError Bool × (String → Option UsageStats) :=
  if requested_tokens > quota.max_tokens_per_task then
    (.error { message := "Request exceeds per-task limit",
              quota_type := "per_task",
              limit := quota.max_tokens_per_task,
              current := requested_tokens }, cache)
  else
    let stats := reset_daily_if_due (get_or_create_stats cache user_id) now
    let cache1 := fun k => if k = user_id then some stats else cache k
    let daily_usage := stats.daily_tokens
    if daily_usage + requested_tokens > quota.daily_tokens_per_user then
      (.error { message := "Daily token quota exceeded for user",
                quota_type := "daily_user",
                limit := quota.daily_tokens_per_user,
                current := daily_usage }, cache1)
    else
      (.ok true, cache1)

/-- Concrete counter state for the C4 counterexample: 5 daily tokens, last
daily reset at time 0. -/
def statsExactDay : UsageStats :=
  { user_id := "u", daily_tokens := 5, daily_requests := 1,
    last_reset_daily := some 0 }

/-- Concrete cache holding only `statsExactDay` under key "u". -/
def cacheExactDay : String → Option UsageStats :=
  fun k => if k = "u" then some statsExactDay else none

/-- Counterexample to C4 as stated: at exactly 24 hours elapsed
(`now = 86400`, last reset at 0), `check_quota` does NOT reset the daily
counters — the stored entry keeps `daily_tokens = 5`,
`daily_requests = 1`, and the old reset stamp, because the code's
condition is strictly `> timedelta(days=1)`, not `≥`. -/
theorem daily_reset_at_exact_24h_cex :
    ((check_quota {} cacheExactDay "u" 0 86400).2 "u").map UsageStats.daily_tokens
        = some 5 ∧
    ((check_quota {} cacheExactDay "u" 0 86400).2 "u").map UsageStats.daily_requests
        = some 1 ∧
    ((check_quota {} cacheExactDay "u" 0 86400).2 "u").map UsageStats.last_reset_daily
        = some (some 0) := by
  have h : ¬ ((86400 : ℚ) - 0 > 86400) := by norm_num
  refine ⟨?_, ?_, ?_⟩ <;>
    simp [check_quota, get_or_create_stats, reset_daily_if_due, daily_reset_due,
      cacheExactDay, statsExactDay, h]

/-- C4 (amended): with an existing counter state carrying a reset stamp and
a request within the per-task limit, `check_quota` resets the daily
counters to 0 and stamps `last_reset_daily := now` exactly when strictly
more than 24 hours (86400 s) have elapsed — and the daily-quota comparison
then runs against the reset value; at 24 hours or less the stored counters
are left unchanged. -/
theorem daily_reset_window (quota : UsageQuota)
    (cache : String → Option UsageStats) (user_id : String) (req : ℕ)
    (now t : ℚ) (s : UsageStats)
    (hreq : req ≤ quota.max_tokens_per_task)
    (hs : cache user_id = some s)
    (ht : s.last_reset_daily = some t) :
    (now - t > 86400 →
      (check_quota quota cache user_id req now).2 user_id =
        some { s with daily_tokens := 0, daily_requests := 0,
                      last_reset_daily := some now } ∧
      ((check_quota quota cache user_id req now).1 = .ok true ↔
        req ≤ quota.daily_tokens_per_user)) ∧
    (now - t ≤ 86400 →
      (check_quota quota cache user_id req now).2 user_id = some s ∧
      ((check_quota quota cache user_id req now).1 = .ok true ↔
        s.daily_tokens + req ≤ quota.daily_tokens_per_user)) := by
  have hstats : get_or_create_stats cache user_id = s := by
    simp [get_or_create_stats, hs]
  constructor
  · intro helapsed
    have hdue : daily_reset_due s now = true := by
      simp [daily_reset_due, ht, helapsed]
    have hreset : reset_daily_if_due s now =
        { s with daily_tokens := 0, daily_requests := 0,
                 last_reset_daily := some now } := by
      simp [reset_daily_if_due, hdue]
    constructor
    · simp [check_quota, not_lt.mpr hreq, hstats, hreset]
      split <;> simp
    · simp [check_quota, not_lt.mpr hreq, hstats, hreset]
      constructor
      · intro h
        split at h
        · cases h
        · omega
      · intro h
        rw [if_neg (by omega)]
  · intro helapsed
    have hdue : daily_reset_due s now = false := by
      simp [daily_reset_due, ht]
      linarith
    have hreset : reset_daily_if_due s now = s := by
      simp [reset_daily_if_due, hdue]
    constructor
    · simp [check_quota, not_lt.mpr hreq, hstats, hreset]
      split <;> simp
    · simp [check_quota, not_lt.mpr hreq, hstats, hreset]
      constructor
      · intro h
        split at h
        · cases h
        · omega
      · intro h
        rw [if_neg (by omega)]

/-- Concrete counter state for the C4/C5 witnesses: 99990 daily tokens,
last reset at time 0. -/
def statsNearLimit : UsageStats :=
  { user_id := "u", daily_tokens := 99990, daily_requests := 3,
    last_reset_daily := some 0 }

/-- Concrete cache holding only `statsNearLimit` under key "u". -/
def cacheNearLimit : String → Option UsageStats :=
  fun k => if k = "u" then some statsNearLimit else none

/-- Witness for C4 (amended): with last reset at 0, the entry is reset at
`now = 86401` (> 24 h) and untouched at `now = 86400` (the theorem applied
at `now = 86400`, where only the unchanged branch is live). -/
theorem daily_reset_window_witness :
    ((86400 : ℚ) - 0 > 86400 →
      (check_quota {} cacheNearLimit "u" 10 86400).2 "u" =
        some { statsNearLimit with daily_tokens := 0, daily_requests := 0,
                                   last_reset_daily := some 86400 } ∧
      ((check_quota {} cacheNearLimit "u" 10 86400).1 = .ok true ↔
        10 ≤ ({} : UsageQuota).daily_tokens_per_user)) ∧
    ((86400 : ℚ) - 0 ≤ 86400 →
      (check_quota {} cacheNearLimit "u" 10 86400).2 "u" = some statsNearLimit ∧
      ((check_quota {} cacheNearLimit "u" 10 86400).1 = .ok true ↔
        statsNearLimit.daily_tokens + 10 ≤ ({} : UsageQuota).daily_tokens_per_user)) :=
  daily_reset_window {} cacheNearLimit "u" 10 86400 0 statsNearLimit
    (by norm_num) rfl rfl

/-- C5: for a request within the per-task limit, `check_quota` raises
`QuotaExceededError` with `quota_type = "daily_user"` exactly when the
caller's current daily tokens (the lazily-created, reset-adjusted entry the
code compares against) plus the requested tokens strictly exceed the daily
per-user limit; at exact equality it returns true.  Any error it raises
under these hypotheses is that daily-user error. -/
theorem daily_quota_boundary (quota : UsageQuota)
    (cache : String → Option UsageStats) (user_id : String) (req : ℕ) (now : ℚ)
    (hreq : req ≤ quota.max_tokens_per_task) :
    ((check_quota quota cache user_id req now).1 =
        .error { message := "Daily token quota exceeded for user",
                 quota_type := "daily_user",
                 limit := quota.daily_tokens_per_user,
                 current := (reset_daily_if_due (get_or_create_stats cache user_id)
                   now).daily_tokens }
      ↔ (reset_daily_if_due (get_or_create_stats cache user_id) now).daily_tokens
          + req > quota.daily_tokens_per_user) ∧
    (∀ e, (check_quota quota cache user_id req now).1 = .error e →
      e = { message := "Daily token quota exceeded for user",
            quota_type := "daily_user",
            limit := quota.daily_tokens_per_user,
            current := (reset_daily_if_due (get_or_create_stats cache user_id)
              now).daily_tokens }) ∧
    ((reset_daily_if_due (get_or_create_stats cache user_id) now).daily_tokens
        + req = quota.daily_tokens_per_user →
      (check_quota quota cache user_id req now).1 = .ok true) := by
  have hbody : check_quota quota cache user_id req now =
      (if (reset_daily_if_due (get_or_create_stats cache user_id) now).daily_tokens
            + req > quota.daily_tokens_per_user then
         (.error { message := "Daily token quota exceeded for user",
                   quota_type := "daily_user",
                   limit := quota.daily_tokens_per_user,
                   current := (reset_daily_if_due (get_or_create_stats cache user_id)
                     now).daily_tokens },
          fun k => if k = user_id then
              some (reset_daily_if_due (get_or_create_stats cache user_id) now)
            else cache k)
       else
         (.ok true,
          fun k => if k = user_id then
              some (reset_daily_if_due (get_or_create_stats cache user_id) now)
            else cache k)) := by
    unfold check_quota
    rw [if_neg (not_lt.mpr hreq)]
  refine ⟨?_, ?_, ?_⟩
  · rw [hbody]
    split_ifs with hover
    · simp [hover]
    · simp [hover]
  · intro e h
    rw [hbody] at h
    split_ifs at h with hover
    exact (Except.error.inj h).symm
  · intro hEq
    rw [hbody, if_neg (by omega)]

/-- Witness for C5: with 99990 daily tokens used and 10 requested
(boundary: 99990 + 10 = 100000 = limit), `check_quota` accepts. -/
theorem daily_quota_boundary_witness :
    ((check_quota {} cacheNearLimit "u" 10 100).1 =
        .error { message := "Daily token quota exceeded for user",
                 quota_type := "daily_user",
                 limit := ({} : UsageQuota).daily_tokens_per_user,
                 current := (reset_daily_if_due
                   (get_or_create_stats cacheNearLimit "u") 100).daily_tokens }
      ↔ (reset_daily_if_due (get_or_create_stats cacheNearLimit "u")
            100).daily_tokens + 10 > ({} : UsageQuota).daily_tokens_per_user) ∧
    (∀ e, (check_quota {} cacheNearLimit "u" 10 100).1 = .error e →
      e = { message := "Daily token quota exceeded for user",
            quota_type := "daily_user",
            limit := ({} : UsageQuota).daily_tokens_per_user,
            current := (reset_daily_if_due
              (get_or_create_stats cacheNearLimit "u") 100).daily_tokens }) ∧
    ((reset_daily_if_due (get_or_create_stats cacheNearLimit "u")
          100).daily_tokens + 10 = ({} : UsageQuota).daily_tokens_per_user →
      (check_quota {} cacheNearLimit "u" 10 100).1 = .ok true) :=
  daily_quota_boundary {} cacheNearLimit "u" 10 100 (by norm_num)

/-- `AIGuard._get_cost_per_1k_tokens` (lines 220-233): the static pricing
table with its fallback default, `dict.get` modelled as chained equality
tests. -/
def get_cost_per_1k_tokens (model : String) : ℚ :=
  if model = "gemini-1.5-flash" then 1875 / 100000000
  else if model = "gemini-1.5-pro" then 125 / 100000
  else if model = "gemini-2.5-pro" then 125 / 100000
  else 1 / 10000

/-- `AIGuard.record_usage` (lines 168-218), in-memory path: computes the
cost estimate, builds the `UsageRecord`, and — only if a stats entry for
the caller already exists (`if stats:` on the `dict.get` result) —
increments that entry's daily counters.  Returns the record and the
updated cache. -/
def record_usage (cache : String → Option UsageStats) (user_id : String)
    (repository_id : Option String) (usage_type : UsageType)
    (tokens_used : ℕ) (model : String) (request_id : String) (now : ℚ) :
    UsageRecord × (String → Option UsageStats) :=
  let cost_estimate := ((tokens_used : ℚ) / 1000) * get_cost_per_1k_tokens model
  let record : UsageRecord :=
    { user_id := user_id, repository_id := repository_id,
      usage_type := usage_type, tokens_used := tokens_used, model := model,
      timestamp := now, request_id := request_id,
      cost_estimate := cost_estimate }
  match cache user_id with
  | none => (record, cache)
  | some s =>
      (record,
       fun k =>
         if k = user_id then
           some { s with daily_tokens := s.daily_tokens + tokens_used,
                         daily_requests := s.daily_requests + 1 }
         else cache k)

/-- C10: when no stats entry exists for the caller, `record_usage` still
returns the full `UsageRecord` with the computed cost estimate (it cannot
fail), and the usage cache is returned exactly as it was: no entry is
created and no counter is incremented. -/
theorem record_usage_no_entry_frame (cache : String → Option UsageStats)
    (user_id : String) (repository_id : Option String)
    (usage_type : UsageType) (tokens_used : ℕ) (model request_id : String)
    (now : ℚ) (h : cache user_id = none) :
    record_usage cache user_id repository_id usage_type tokens_used model
        request_id now =
      ({ user_id := user_id, repository_id := repository_id,
         usage_type := usage_type, tokens_used := tokens_used, model := model,
         timestamp := now, request_id := request_id,
         cost_estimate := ((tokens_used : ℚ) / 1000)
           * get_cost_per_1k_tokens model },
       cache) := by
  simp only [record_usage, h]

/-- Witness for C10: recording 4000 tokens for an unknown caller against
the empty cache returns the record (cost 4 · flash rate) and the cache
unchanged. -/
theorem record_usage_no_entry_frame_witness :
    record_usage (fun _ => none) "ghost" none .analysis 4000
        "gemini-1.5-flash" "req9" 12 =
      ({ user_id := "ghost", repository_id := none, usage_type := .analysis,
         tokens_used := 4000, model := "gemini-1.5-flash", timestamp := 12,
         request_id := "req9",
         cost_estimate := ((4000 : ℚ) / 1000)
           * get_cost_per_1k_tokens "gemini-1.5-flash" },
       fun _ => none) :=
  record_usage_no_entry_frame (fun _ => none) "ghost" none .analysis 4000
    "gemini-1.5-flash" "req9" 12 rfl

/-! ## ModelRouter (`app/ai/model_router.py`) -/

/-- `ModelRouter._select_by_rules` (lines 98-138): the ordered rule
cascade.  `COMPLEXITY_THRESHOLD_PRO = 0.7`; `self.default_model` is passed
in as `default_model` (the repository's settings define no
`ai_model_default`, so at runtime it is "gemini-1.5-flash"). -/
def select_by_rules (task_type : String) (complexity : ℚ) (user_tier : String)
    (estimated_tokens : ℤ) (default_model : String) : String :=
  if user_tier = "free" then "gemini-1.5-flash"
  else if complexity < 3 / 10 then "gemini-1.5-flash"
  else if estimated_tokens > 50000 then "gemini-1.5-flash"
  else if 7 / 10 ≤ complexity ∧ (user_tier = "pro" ∨ user_tier = "enterprise")
    then "gemini-2.5-pro"
  else if task_type = "ci_generation"
      ∧ (user_tier = "pro" ∨ user_tier = "enterprise")
    then "gemini-1.5-pro"
  else default_model

/-- The model-name component of `ModelRouter.select_model` (lines 57-96),
parameterised over the estimator's behaviour: `estimate_complexity` maps
the content to its complexity score and `estimate content is_code` to its
token estimate, so the theorem below quantifies over every possible content
string via every possible estimator outcome. -/
def select_model_name (estimate_complexity : String → ℚ)
    (estimate : String → Bool → ℤ) (default_model : String)
    (task_type content user_tier : String) (estimated_tokens : Option ℤ) :
    String :=
  let complexity := estimate_complexity content
  let est0 :=
    match estimated_tokens with
    | none => estimate content false
    | some n => n
  let is_code := task_type = "analysis" ∨ task_type = "ci_generation"
  let est := if is_code then estimate content true else est0
  select_by_rules task_type complexity user_tier est default_model

/-- C8: for `user_tier = "free"`, `select_model` picks
"gemini-1.5-flash" — the cheapest model, and the configured default in
this repository — for every task type, every content (any complexity score
or token estimate the estimator could produce), and every pre-supplied
token estimate: rule 1 of the cascade fires before any complexity or size
rule is consulted. -/
theorem free_tier_always_default_model (estimate_complexity : String → ℚ)
    (estimate : String → Bool → ℤ) (default_model : String)
    (task_type content : String) (estimated_tokens : Option ℤ) :
    select_model_name estimate_complexity estimate default_model task_type
      content "free" estimated_tokens = "gemini-1.5-flash" := by
  simp [select_model_name, select_by_rules]
